import Mathlib

/-!
Verification development for the schema / output-handling / gallery-store core
of the repository (src/util/model_schema.py, src/util/output_handler.py,
src/util/gallery_database.py), as a shallow embedding in Lean 4.

Conventions used throughout:
* Python strings are Lean `String`; helpers over `String.data` (lists of
  chars) replace the Python substring / prefix / lower-casing operations so
  that everything reduces in the kernel.
* Python numbers are modelled exactly: `int` as `Int`, `float` as `ℚ`
  (every claim checked here is independent of binary-float rounding).
* Python `None` / exceptions are `Option` / `Except PyErr`.
* Calls into the runtime and the OS (json serialisation details,
  `mimetypes` tables, base64 decoding, file writes, network fetches, the
  clock) are threaded in explicitly as parameters / oracles, so a theorem
  quantifying over them covers every behaviour of the real collaborator.
-/

/-- Exception kinds that the embedded code can raise. -/
inductive PyErr
  | typeError
  | indexError
  | operationalError
  | integrityError
  | valueError
  | keyError
  | writeError
  deriving DecidableEq

/-- Single-quote character, used to rebuild the exact Python error-message
strings. -/
def apos : String := String.singleton (Char.ofNat 39)

/-- Wrap a string in single quotes the way the f-strings in the source do. -/
def quoted (s : String) : String := apos ++ s ++ apos

/-- Does the second char list occur as a prefix of the first? -/
def charsStarts : List Char → List Char → Bool
  | _, [] => true
  | [], _ :: _ => false
  | c :: cs, d :: ds => c = d && charsStarts cs ds

/-- Does the second char list occur as a contiguous substring of the first? -/
def charsContains : List Char → List Char → Bool
  | [], pat => pat.isEmpty
  | l@(_ :: t), pat => charsStarts l pat || charsContains t pat

/-- Python `pat in hay` on strings (substring containment). -/
def strContainsSub (hay pat : String) : Bool := charsContains hay.data pat.data

/-- Python `hay.startswith(pre)`. -/
def strStarts (hay pre : String) : Bool := charsStarts hay.data pre.data

/-- Python `s.lower()` (ASCII case folding, which is what every call site in
the source feeds it). -/
def strLower (s : String) : String := String.mk (s.data.map Char.toLower)

/-- Python `f"{n:03d}"` for a natural number. -/
def fmt3 (n : Nat) : String :=
  if n < 10 then "00" ++ toString n
  else if n < 100 then "0" ++ toString n
  else toString n

/-- JSON documents, the shape of the Python dict/list values that flow
through the code (input parameter maps, output metadata, cached schemas). -/
inductive Json
  | null
  | bool (b : Bool)
  | num (n : Int)
  | str (s : String)
  | arr (xs : List Json)
  | obj (fields : List (String × Json))

/-- Python truthiness of a JSON value (`if output.metadata:` and friends). -/
def jsonTruthy : Json → Bool
  | .null => false
  | .bool b => b
  | .num n => n != 0
  | .str s => !s.isEmpty
  | .arr xs => !xs.isEmpty
  | .obj fs => !fs.isEmpty

/-- Python `dict.get(key)` on a JSON object: `none` for a missing key or a
non-object. -/
def jsonGet (j : Json) (k : String) : Option Json :=
  match j with
  | .obj fs => fs.lookup k
  | _ => none

/-- A `dict.get` that also projects an integer field, as in
`metadata.get("width")` where the extractor only ever stores integers. -/
def jsonGetNum (j : Json) (k : String) : Option Nat :=
  match jsonGet j k with
  | some (.num n) => n.toNat'
  | _ => none

/-- Runtime Python values a caller can put into a parameter map. -/
inductive PyValue
  | vInt (n : Int)
  | vFloat (q : ℚ)
  | vBool (b : Bool)
  | vStr (s : String)
  | vNone
  deriving DecidableEq

/-- Python `isinstance(v, int)`. `bool` is a subclass of `int`, so booleans
pass this check. -/
def isInstInt : PyValue → Bool
  | .vInt _ => true
  | .vBool _ => true
  | _ => false

/-- Python `isinstance(v, (int, float))`. -/
def isInstNum : PyValue → Bool
  | .vInt _ => true
  | .vFloat _ => true
  | .vBool _ => true
  | _ => false

/-- Python `isinstance(v, bool)`. -/
def isInstBool : PyValue → Bool
  | .vBool _ => true
  | _ => false

/-- Numeric content of a value, when Python treats it as a number
(`True`/`False` count as `1`/`0`). -/
def pyToRat : PyValue → Option ℚ
  | .vInt n => some (n : ℚ)
  | .vFloat q => some q
  | .vBool b => some (if b then 1 else 0)
  | _ => none

/-- Python `v < bound` against a numeric bound: defined for numeric values,
raises `TypeError` for strings and `None`. -/
def pyLtRat (v : PyValue) (bound : ℚ) : Except PyErr Bool :=
  match pyToRat v with
  | some r => .ok (decide (r < bound))
  | none => .error .typeError

/-- Python `v > bound` against a numeric bound. -/
def pyGtRat (v : PyValue) (bound : ℚ) : Except PyErr Bool :=
  match pyToRat v with
  | some r => .ok (decide (r > bound))
  | none => .error .typeError

/-- Python `==` between parameter-map values: numbers of different runtime
types compare by value (`True == 1`, `1 == 1.0`), strings by content, other
cross-kind comparisons are `False`. -/
def pyEq (a b : PyValue) : Bool :=
  match pyToRat a, pyToRat b with
  | some x, some y => x == y
  | _, _ =>
    match a, b with
    | .vStr s, .vStr t => s == t
    | .vNone, .vNone => true
    | _, _ => false

/-! ## model_schema.py -/

/-- `ParameterType` (model_schema.py lines 12-19). -/
inductive ParameterType
  | STRING
  | NUMBER
  | INTEGER
  | BOOLEAN
  | ARRAY
  | OBJECT
  | FILE
  deriving DecidableEq, Repr

/-- `ParameterDefinition` (model_schema.py lines 22-34). -/
structure ParameterDefinition where
  name : String
  type : ParameterType
  title : String
  description : String
  required : Bool := false
  default : Option Json := none
  minimum : Option ℚ := none
  maximum : Option ℚ := none
  enum : Option (List PyValue) := none
  format : Option String := none
  x_order : Option Int := none

/-- `OutputDefinition` (model_schema.py lines 37-42). -/
structure OutputDefinition where
  type : String
  description : Option String := none
  items : Option Json := none
  properties : Option Json := none

/-- `ModelSchema` (model_schema.py lines 45-50). `model_info` is the plain
dict built in `_parse_openapi_schema`. -/
structure ModelSchema where
  model_string : String
  input_parameters : List ParameterDefinition
  output_definition : OutputDefinition
  model_info : List (String × Json) := []

/-- One property of the OpenAPI `Input` schema, i.e. the `param_def` dict
read by `_parse_input_parameters` / `_get_parameter_type`. Absent keys are
`none`. -/
structure RawParamDef where
  type : Option String := none
  title : Option String := none
  description : Option String := none
  default : Option Json := none
  minimum : Option ℚ := none
  maximum : Option ℚ := none
  enum : Option (List PyValue) := none
  format : Option String := none
  xOrder : Option Int := none

/-- `_get_parameter_type` (model_schema.py lines 213-232): `format` of
`uri`/`binary`, or the word `file` in the (lower-cased) description, forces
`FILE`; otherwise the declared primitive type is mapped, defaulting to
`STRING`. -/
def get_parameter_type (d : RawParamDef) : ParameterType :=
  if d.format == some "uri" || d.format == some "binary"
      || strContainsSub (strLower (d.description.getD "")) "file" then
    .FILE
  else
    match d.type.getD "string" with
    | "string" => .STRING
    | "number" => .NUMBER
    | "integer" => .INTEGER
    | "boolean" => .BOOLEAN
    | "array" => .ARRAY
    | "object" => .OBJECT
    | _ => .STRING

/-- The parameter list built by the loop in `_parse_input_parameters`
(model_schema.py lines 191-206), in provider (dict-insertion) order, before
the sort. `x-order` defaults to `999` when the provider omits it. -/
def pre_input_parameters (properties : List (String × RawParamDef))
    (required_fields : List String) : List ParameterDefinition :=
  properties.map fun p =>
    { name := p.1
      type := get_parameter_type p.2
      title := p.2.title.getD p.1
      description := p.2.description.getD ""
      required := required_fields.contains p.1
      default := p.2.default
      minimum := p.2.minimum
      maximum := p.2.maximum
      enum := p.2.enum
      format := p.2.format
      x_order := some (p.2.xOrder.getD 999) }

/-- The sort key of `parameters.sort(key=lambda p: p.x_order or 999)`
(model_schema.py line 209): Python `or` replaces a falsy `x_order` — `None`
or `0` — by `999`. -/
def sortKeyEff (p : ParameterDefinition) : Int :=
  match p.x_order with
  | none => 999
  | some v => if v = 0 then 999 else v

/-- `_parse_input_parameters` (model_schema.py lines 184-211): build the
entries in provider order, then stable-sort them by `p.x_order or 999`
(Python `list.sort` is stable; `List.mergeSort` is the stable sort by the
same key). -/
def parse_input_parameters (properties : List (String × RawParamDef))
    (required_fields : List String) : List ParameterDefinition :=
  (pre_input_parameters properties required_fields).mergeSort
    fun p q => sortKeyEff p ≤ sortKeyEff q

/-- Message f-string `f"Unknown parameter \x7bparam_name\x7d"` with quotes. -/
def unknownParamMsg (k : String) : String := "Unknown parameter " ++ quoted k

/-- Message for a missing required parameter. -/
def requiredParamMsg (k : String) : String :=
  "Required parameter " ++ quoted k ++ " is missing"

/-- Message for a type violation. -/
def typeMsg (k what : String) : String :=
  "Parameter " ++ quoted k ++ " must be " ++ what

/-- Message for a range violation. The numeric rendering of the bound is a
plain `toString` of the rational; only the parameter name is load-bearing. -/
def rangeMsg (k cmp : String) (bound : ℚ) : String :=
  "Parameter " ++ quoted k ++ " must be " ++ cmp ++ " " ++ toString bound

/-- Message for an enum violation; the list rendering is abbreviated, only
the parameter name is load-bearing. -/
def enumMsg (k : String) : String :=
  "Parameter " ++ quoted k ++ " must be one of the declared enum values"

/-- The type-check branch of the validation loop (model_schema.py lines
273-279): an `if`/`elif` chain, so at most one message per parameter. -/
def typeErrs (p : ParameterDefinition) (v : PyValue) : List String :=
  if p.type = .INTEGER ∧ ¬ isInstInt v then [typeMsg p.name "an integer"]
  else if p.type = .NUMBER ∧ ¬ isInstNum v then [typeMsg p.name "a number"]
  else if p.type = .BOOLEAN ∧ ¬ isInstBool v then [typeMsg p.name "a boolean"]
  else []

/-- The range-check branch (model_schema.py lines 281-286). The comparisons
`value < param.minimum` / `value > param.maximum` run on the raw value even
when the type check above already failed, so a non-numeric value meets a
declared bound and raises `TypeError`. -/
def rangeErrs (p : ParameterDefinition) (v : PyValue) : Except PyErr (List String) :=
  if p.type = .INTEGER ∨ p.type = .NUMBER then
    match p.minimum, p.maximum, pyToRat v with
    | none, none, _ => .ok []
    | some _, _, none => .error .typeError
    | none, some _, none => .error .typeError
    | some m1, none, some r =>
        .ok (if r < m1 then [rangeMsg p.name ">=" m1] else [])
    | some m1, some m2, some r =>
        .ok ((if r < m1 then [rangeMsg p.name ">=" m1] else [])
          ++ (if r > m2 then [rangeMsg p.name "<=" m2] else []))
    | none, some m2, some r =>
        .ok (if r > m2 then [rangeMsg p.name "<=" m2] else [])
  else
    .ok []

/-- The enum-check branch (model_schema.py lines 288-290); skipped when the
declared enum is `None` or empty (Python truthiness of `param.enum`). -/
def enumErrs (p : ParameterDefinition) (v : PyValue) : List String :=
  match p.enum with
  | some es => if !es.isEmpty && !(es.any (pyEq v)) then [enumMsg p.name] else []
  | none => []

/-- The per-parameter constraint loop (model_schema.py lines 267-290), in
schema order, skipping parameters absent from the input map. -/
def constraintErrs (ps : List ParameterDefinition)
    (input : List (String × PyValue)) : Except PyErr (List String) :=
  match ps with
  | [] => .ok []
  | p :: rest =>
      match input.lookup p.name with
      | none => constraintErrs rest input
      | some v =>
          match rangeErrs p v, constraintErrs rest input with
          | .error e, _ => .error e
          | .ok _, .error e => .error e
          | .ok r, .ok more => .ok (typeErrs p v ++ r ++ enumErrs p v ++ more)

/-- `validate_input_parameters` (model_schema.py lines 243-292), embedded
from the point where the schema is in hand (the initial fetch is the
network collaborator). Returns `(len(errors) == 0, errors)`; the `TypeError`
a range check can raise propagates as `.error`. The input map is read, never
written. -/
def validate_input_parameters (schema : ModelSchema)
    (input : List (String × PyValue)) : Except PyErr (Bool × List String) :=
  let validNames := schema.input_parameters.map (·.name)
  let unknown := (input.map Prod.fst).filterMap fun k =>
    if validNames.contains k then none else some (unknownParamMsg k)
  let requiredMissing :=
    ((schema.input_parameters.filter (·.required)).map (·.name)).filterMap fun k =>
      if (input.map Prod.fst).contains k then none else some (requiredParamMsg k)
  match constraintErrs schema.input_parameters input with
  | .error e => .error e
  | .ok constraints =>
      let errors := unknown ++ requiredMissing ++ constraints
      .ok (errors.isEmpty, errors)

/-! ## output_handler.py -/

/-- `OutputType` (output_handler.py lines 14-21); the source member `AUDIO`
is spelled `AUDIO_` here. -/
inductive OutputType
  | IMAGE
  | VIDEO
  | AUDIO_
  | TEXT
  | JSON
  | FILE
  | UNKNOWN
  deriving DecidableEq, Repr

/-- The `.value` string of each `OutputType` member. -/
def OutputType.value : OutputType → String
  | .IMAGE => "image"
  | .VIDEO => "video"
  | .AUDIO_ => "audio"
  | .TEXT => "text"
  | .JSON => "json"
  | .FILE => "file"
  | .UNKNOWN => "unknown"

/-- A raw element of a prediction result, classified the way the
`hasattr`/`isinstance` dispatch of `_process_single_output` sees it:
a `FileOutput`-like object (has `read` and `url`; `url` is its source URL
and `readLen` the byte count `read()` yields), a string, a dict, or any
other primitive (carried as its `str(...)` rendering). -/
inductive RawItem
  | fileObj (url : String) (readLen : Nat)
  | str (s : String)
  | dict (j : Json)
  | other (s : String)

/-- The raw prediction output as passed to `process_prediction_output`:
Python `None`, a list, or a single non-list value. -/
inductive RawOutput
  | nullOut
  | listOut (items : List RawItem)
  | singleOut (item : RawItem)

/-- `ProcessedOutput` (output_handler.py lines 24-36). `data` keeps the raw
item the dataclass stores in its `Any` field. -/
structure ProcessedOutput where
  type : OutputType
  data : RawItem
  file_path : Option String := none
  mime_type : Option String := none
  file_size : Option Nat := none
  metadata : Option Json := none
  width : Option Nat := none
  height : Option Nat := none
  duration : Option ℚ := none

/-- The deterministic Python library functions the handler calls, kept
abstract: `json.dumps` (default and `indent=2` renderings),
`mimetypes.guess_type` on a URL, `mimetypes.guess_extension`, and the byte
length `base64.b64decode` yields (`none` when it raises `binascii.Error`). -/
structure PyLibs where
  pyDumps : Json → String
  pyDumpsIndent2 : Json → String
  guessMime : String → Option String
  guessExt : String → Option String
  b64len : String → Option Nat

/-- Per-element external effects: whether the file write (open/write/stat)
succeeds, and for HTTP(S) URLs the response, `some (contentType, byteLen)`
on success and `none` when `httpx.get`/`raise_for_status` raises. -/
structure ItemCtx where
  writeOk : Bool := true
  httpResp : Option (String × Nat) := none

/-- Image-metadata extraction result from PIL for this element: `some`
dimensions and format string when `PIL.Image.open` succeeds, else `none`.
Bundled with `ItemCtx` since it is per-element and best-effort. -/
structure ItemFx extends ItemCtx where
  imageMeta : Option (Nat × Nat × String) := none

/-- `_determine_output_type` (output_handler.py lines 292-310); the argument
is the possibly-`None` mime type, and a falsy (missing or empty) mime type
yields `UNKNOWN`. -/
def determine_output_type (mime : Option String) : OutputType :=
  match mime with
  | none => .UNKNOWN
  | some m =>
    if m = "" then .UNKNOWN
    else
      let ml := strLower m
      if strStarts ml "image/" then .IMAGE
      else if strStarts ml "video/" then .VIDEO
      else if strStarts ml "audio/" then .AUDIO_
      else if strStarts ml "text/" then .TEXT
      else if ml = "application/json" then .JSON
      else .FILE

/-- The `self.subdirs` table (output_handler.py lines 45-52): six
type-partitioned subdirectories. `UNKNOWN` has no entry, so indexing with it
raises `KeyError`. -/
def subdir (outputDir : String) : OutputType → Option String
  | .IMAGE => some (outputDir ++ "/images")
  | .VIDEO => some (outputDir ++ "/videos")
  | .AUDIO_ => some (outputDir ++ "/audio")
  | .TEXT => some (outputDir ++ "/text")
  | .JSON => some (outputDir ++ "/json")
  | .FILE => some (outputDir ++ "/files")
  | .UNKNOWN => none

/-- The `common_mappings` fallback table of `_get_extension_from_mime_type`
(output_handler.py lines 330-336). -/
def commonMappings : List (String × String) :=
  [("image/webp", "webp"), ("video/mp4", "mp4"), ("audio/mpeg", "mp3"),
   ("audio/wav", "wav"), ("application/json", "json")]

/-- `_get_extension_from_mime_type` (output_handler.py lines 320-338):
falsy mime yields `None`; otherwise `mimetypes.guess_extension` with leading
dots stripped, else the `common_mappings` lookup on the lower-cased mime. -/
def extension_from_mime_type (L : PyLibs) (mime : Option String) : Option String :=
  match mime with
  | none => none
  | some m =>
    if m = "" then none
    else
      match L.guessExt m with
      | some e => some (String.mk (e.data.dropWhile (· = '.')))
      | none => commonMappings.lookup (strLower m)

/-- The filename scheme shared by all writers:
`timestamp_generationId_index03d.extension`. -/
def outFileName (timestamp generation_id : String) (index : Nat) (ext : String) : String :=
  timestamp ++ "_" ++ generation_id ++ "_" ++ fmt3 index ++ "." ++ ext

/-- `_extract_media_metadata` (output_handler.py lines 340-371): a dict of
image dimensions when PIL delivers them, placeholder format tags for
video/audio, `None` otherwise (the empty dict is falsy). -/
def extract_media_metadata (fx : ItemFx) (outputType : OutputType) : Option Json :=
  match outputType with
  | .IMAGE =>
    match fx.imageMeta with
    | some (w, h, f) =>
        some (.obj [("width", .num w), ("height", .num h), ("format", .str f)])
    | none => none
  | .VIDEO => some (.obj [("format", .str "video")])
  | .AUDIO_ => some (.obj [("format", .str "audio")])
  | _ => none

/-- `metadata.get("width") if metadata else None` and the `height`/
`duration` twins in the writers. -/
def metaGetNum (metadata : Option Json) (k : String) : Option Nat :=
  match metadata with
  | some m => jsonGetNum m k
  | none => none

/-- `_process_file_output` (output_handler.py lines 110-151). Everything is
inside one `try`: a missing subdirectory (`UNKNOWN` type) or a failing
read/write returns `None` and only drops this element. -/
def process_file_output (L : PyLibs) (outputDir timestamp : String) (fx : ItemFx)
    (url : String) (readLen : Nat) (generation_id : String) (index : Nat) :
    Option ProcessedOutput :=
  let mime := L.guessMime url
  let outputType := determine_output_type mime
  let ext := (extension_from_mime_type L mime).getD "bin"
  let ext := if ext = "" then "bin" else ext
  match subdir outputDir outputType with
  | none => none
  | some dir =>
    if fx.writeOk then
      let metadata := extract_media_metadata fx outputType
      some { type := outputType
             data := .fileObj url readLen
             file_path := some (dir ++ "/" ++ outFileName timestamp generation_id index ext)
             mime_type := mime
             file_size := some readLen
             metadata := metadata
             width := metaGetNum metadata "width"
             height := metaGetNum metadata "height"
             duration := metaGetNum metadata "duration" |>.map (fun n => (n : ℚ)) }
    else none

/-- `_process_url_output` (output_handler.py lines 153-196): a blocking
download; the mime type is the response content-type header, defaulting to
the empty string. Any failure (network, missing subdirectory, write) is
caught and drops the element. -/
def process_url_output (L : PyLibs) (outputDir timestamp : String) (fx : ItemFx)
    (url generation_id : String) (index : Nat) : Option ProcessedOutput :=
  match fx.httpResp with
  | none => none
  | some (contentType, byteLen) =>
    let mime := contentType
    let outputType := determine_output_type (some mime)
    let ext := (extension_from_mime_type L (some mime)).getD "bin"
    let ext := if ext = "" then "bin" else ext
    match subdir outputDir outputType with
    | none => none
    | some dir =>
      if fx.writeOk then
        let metadata := extract_media_metadata fx outputType
        some { type := outputType
               data := .str url
               file_path := some (dir ++ "/" ++ outFileName timestamp generation_id index ext)
               mime_type := some mime
               file_size := some byteLen
               metadata := metadata
               width := metaGetNum metadata "width"
               height := metaGetNum metadata "height"
               duration := metaGetNum metadata "duration" |>.map (fun n => (n : ℚ)) }
      else none

/-- The header/payload split of `data_url.split(",", 1)`: `none` when there
is no comma (the 2-element unpacking then raises `ValueError`). -/
def dataUrlSplit (s : String) : Option (String × String) :=
  match s.data.splitOn ',' with
  | [] => none
  | [_] => none
  | h :: rest => some (String.mk h, String.intercalate "," (rest.map String.mk))

/-- `header.split(";")[0].split(":")[1]` — the mime type of a data URL; the
dispatch guarantees the header starts with `data:` so index 1 exists. -/
def dataUrlMime (header : String) : String :=
  let firstSeg := (header.data.splitOn ';').headD []
  match (String.mk firstSeg).data.splitOn ':' with
  | _ :: m :: _ => String.mk m
  | _ => ""

/-- `_process_data_url_output` (output_handler.py lines 198-246): decode the
payload (base64 when the header mentions it, else the UTF-8 encoding of the
text) without network access; all failures are caught and drop the element. -/
def process_data_url_output (L : PyLibs) (outputDir timestamp : String) (fx : ItemFx)
    (data_url generation_id : String) (index : Nat) : Option ProcessedOutput :=
  match dataUrlSplit data_url with
  | none => none
  | some (header, payload) =>
    let mime := dataUrlMime header
    let decodedLen : Option Nat :=
      if strContainsSub header "base64" then L.b64len payload
      else some payload.utf8ByteSize
    match decodedLen with
    | none => none
    | some byteLen =>
      let outputType := determine_output_type (some mime)
      let ext := (extension_from_mime_type L (some mime)).getD "bin"
      let ext := if ext = "" then "bin" else ext
      match subdir outputDir outputType with
      | none => none
      | some dir =>
        if fx.writeOk then
          let metadata := extract_media_metadata fx outputType
          some { type := outputType
                 data := .str data_url
                 file_path := some (dir ++ "/" ++ outFileName timestamp generation_id index ext)
                 mime_type := some mime
                 file_size := some byteLen
                 metadata := metadata
                 width := metaGetNum metadata "width"
                 height := metaGetNum metadata "height"
                 duration := metaGetNum metadata "duration" |>.map (fun n => (n : ℚ)) }
        else none

/-- `_process_text_output` (output_handler.py lines 248-267). There is no
`try` here: a failing `open`/`write` raises out of the whole call, so the
result is `Except`, not `Option`. -/
def process_text_output (outputDir timestamp : String) (fx : ItemFx)
    (text generation_id : String) (index : Nat) : Except PyErr ProcessedOutput :=
  if fx.writeOk then
    .ok { type := .TEXT
          data := .str text
          file_path := some (outputDir ++ "/text/" ++ outFileName timestamp generation_id index "txt")
          mime_type := some "text/plain"
          file_size := some text.utf8ByteSize }
  else .error .writeError

/-- `_process_json_output` (output_handler.py lines 269-290). Also without a
`try`: a failing write raises out of the whole call. The serialized text is
`json.dumps(json_data, indent=2)`. -/
def process_json_output (L : PyLibs) (outputDir timestamp : String) (fx : ItemFx)
    (json_data : Json) (generation_id : String) (index : Nat) :
    Except PyErr ProcessedOutput :=
  if fx.writeOk then
    .ok { type := .JSON
          data := .dict json_data
          file_path := some (outputDir ++ "/json/" ++ outFileName timestamp generation_id index "json")
          mime_type := some "application/json"
          file_size := some (L.pyDumpsIndent2 json_data).utf8ByteSize }
  else .error .writeError

/-- `_process_single_output` (output_handler.py lines 86-108): dispatch on
the runtime shape of the element. `.ok none` is a dropped element (a caught
failure inside the file/url/data-url handlers); `.error` is an uncaught
exception from the text/json writers. -/
def process_single_output (L : PyLibs) (outputDir timestamp : String) (fx : ItemFx)
    (item : RawItem) (generation_id : String) (index : Nat) :
    Except PyErr (Option ProcessedOutput) :=
  match item with
  | .fileObj url readLen =>
      .ok (process_file_output L outputDir timestamp fx url readLen generation_id index)
  | .str s =>
      if strStarts s "http://" || strStarts s "https://" then
        .ok (process_url_output L outputDir timestamp fx s generation_id index)
      else if strStarts s "data:" then
        .ok (process_data_url_output L outputDir timestamp fx s generation_id index)
      else
        (process_text_output outputDir timestamp fx s generation_id index).map some
  | .dict j =>
      (process_json_output L outputDir timestamp fx j generation_id index).map some
  | .other s =>
      (process_text_output outputDir timestamp fx s generation_id index).map some

/-- The element loop of `process_prediction_output` over a list input:
element `i` is processed with its own effects `fxs[i]` (default effects when
the oracle list is short) and appended when not dropped. -/
def processItems (L : PyLibs) (outputDir timestamp : String) (fxs : List ItemFx)
    (generation_id : String) : Nat → List RawItem → Except PyErr (List ProcessedOutput)
  | _, [] => .ok []
  | i, item :: rest =>
      match process_single_output L outputDir timestamp (fxs.getD i {}) item
              generation_id i,
            processItems L outputDir timestamp fxs generation_id (i + 1) rest with
      | .error e, _ => .error e
      | .ok _, .error e => .error e
      | .ok (some out), .ok tail => .ok (out :: tail)
      | .ok none, .ok tail => .ok tail

/-- `process_prediction_output` (output_handler.py lines 61-84): `None`
yields the empty list, a list is processed element-wise, any other value is
processed as a single element at index 0. -/
def process_prediction_output (L : PyLibs) (outputDir timestamp : String)
    (fxs : List ItemFx) (output : RawOutput) (generation_id : String) :
    Except PyErr (List ProcessedOutput) :=
  match output with
  | .nullOut => .ok []
  | .listOut items => processItems L outputDir timestamp fxs generation_id 0 items
  | .singleOut item =>
      match process_single_output L outputDir timestamp (fxs.getD 0 {}) item
          generation_id 0 with
      | .error e => .error e
      | .ok (some out) => .ok [out]
      | .ok none => .ok []

/-! ## gallery_database.py -/

/-- One row of the `generations` table, with exactly the columns created by
`_init_database` (gallery_database.py lines 37-47): there is no `notes` and
no `rating` column. `favorite` has `DEFAULT FALSE`. -/
structure GenRow where
  id : String
  model_string : String
  model_category : Option String := none
  input_params : String
  created_at : String
  thumbnail_path : Option String := none
  favorite : Bool := false
  deriving DecidableEq, Repr

/-- One row of the `generation_outputs` table (gallery_database.py lines
50-64). `rowId` is the `INTEGER PRIMARY KEY AUTOINCREMENT` id;
`generation_id`, `output_type` and `file_path` are `NOT NULL`. `metadata`
holds the serialized JSON text. -/
structure OutputRow where
  rowId : Nat
  generation_id : String
  output_type : String
  file_path : String
  file_size : Option Nat := none
  mime_type : Option String := none
  width : Option Nat := none
  height : Option Nat := none
  duration : Option ℚ := none
  metadata : Option String := none
  deriving DecidableEq, Repr

/-- The relational store: contents of the three tables plus the autoincrement
counter for `generation_outputs.id`. The schema cache rows are
`(model_string, schema_data, last_updated)`. -/
structure Store where
  generations : List GenRow := []
  outputs : List OutputRow := []
  nextOutputId : Nat := 1
  schemas : List (String × String × String) := []
  deriving DecidableEq, Repr

/-- The column names of the `generations` table as created by
`_init_database`; SQL name resolution and `sqlite3.Row` key access are
checked against this list. -/
def generationsColumns : List String :=
  ["id", "model_string", "model_category", "input_params", "created_at",
   "thumbnail_path", "favorite"]

/-- `sqlite3.Row` subscript access on a `generations` row: a key that is not
a column raises `IndexError`. -/
def rowKey (c : String) : Except PyErr Unit :=
  if generationsColumns.contains c then .ok () else .error .indexError

/-- SQL name resolution of a `g.<column>` reference at statement-preparation
time: an unknown column raises `sqlite3.OperationalError`. -/
def sqlGenColumn (c : String) : Except PyErr Unit :=
  if generationsColumns.contains c then .ok () else .error .operationalError

/-- `GenerationRecord` (gallery_database.py lines 14-23). `input_params`
keeps the serialized text the row stores (the source applies `json.loads`
to it; every claim treats it as opaque), and `outputs` is the list of output
row dicts built by `_get_outputs_for_generation` (`metadata` likewise kept
serialized). -/
structure GenerationRecord where
  id : String
  model_string : String
  model_category : String
  input_params : String
  created_at : String
  thumbnail_path : Option String := none
  favorite : Bool := false
  outputs : List OutputRow := []
  deriving DecidableEq, Repr

/-- `_get_outputs_for_generation` (gallery_database.py lines 233-256):
`SELECT * FROM generation_outputs WHERE generation_id = ? ORDER BY id`. -/
def get_outputs_for_generation (s : Store) (generation_id : String) : List OutputRow :=
  (s.outputs.filter (fun r => r.generation_id == generation_id)).mergeSort
    fun a b => a.rowId ≤ b.rowId

/-- Building a `GenerationRecord` from a `generations` row the way
`get_generations` / `search_generations` do, including the
`row["model_category"] or "unknown"` defaulting. -/
def recordOfRow (s : Store) (g : GenRow) : GenerationRecord :=
  { id := g.id
    model_string := g.model_string
    model_category :=
      match g.model_category with
      | none => "unknown"
      | some c => if c = "" then "unknown" else c
    input_params := g.input_params
    created_at := g.created_at
    thumbnail_path := g.thumbnail_path
    favorite := g.favorite
    outputs := get_outputs_for_generation s g.id }

/-- `json.dumps(output.metadata) if output.metadata else None` (gallery
line 162): a `None` or falsy (empty) dict stores NULL. -/
def serializedMeta (L : PyLibs) (o : ProcessedOutput) : Option String :=
  match o.metadata with
  | some j => if jsonTruthy j then some (L.pyDumps j) else none
  | none => none

/-- One `INSERT INTO generation_outputs` row (gallery_database.py lines
147-163). `file_path` is `NOT NULL`, so an output persisted without a path
makes the insert raise `IntegrityError`. -/
def rowOfOutput (L : PyLibs) (generation_id : String) (rowId : Nat)
    (o : ProcessedOutput) : Except PyErr OutputRow :=
  match o.file_path with
  | none => .error .integrityError
  | some fp =>
    .ok { rowId := rowId
          generation_id := generation_id
          output_type := o.type.value
          file_path := fp
          file_size := o.file_size
          mime_type := o.mime_type
          width := o.width
          height := o.height
          duration := o.duration
          metadata := serializedMeta L o }

/-- The output-insertion loop of `save_generation`: SQL statement number
`opIdx` (counting from the initial upsert as statement 0) inserts the row
with autoincrement id `rowId`; the failure oracle `failAt` makes that
statement raise. -/
def insertOutputRows (L : PyLibs) (failAt : Option Nat) (generation_id : String) :
    Nat → Nat → List ProcessedOutput → Except PyErr (List OutputRow)
  | _, _, [] => .ok []
  | opIdx, rowId, o :: rest =>
    if failAt = some opIdx then .error .operationalError
    else
      match rowOfOutput L generation_id rowId o,
            insertOutputRows L failAt generation_id (opIdx + 1) (rowId + 1) rest with
      | .error e, _ => .error e
      | .ok _, .error e => .error e
      | .ok row, .ok tail => .ok (row :: tail)

/-- The `generations` row written by the `INSERT OR REPLACE` of
`save_generation` (gallery lines 128-139). The statement's column list
omits `favorite`, so the (re-)inserted row always carries the column
default `FALSE`. -/
def newGenRow (L : PyLibs) (generation_id model_string model_category : String)
    (input_params : Json) (thumbnail_path : Option String) (now : String) : GenRow :=
  { id := generation_id
    model_string := model_string
    model_category := some model_category
    input_params := L.pyDumps input_params
    created_at := now
    thumbnail_path := thumbnail_path
    favorite := false }

/-- The transactional body of `save_generation` (gallery_database.py lines
126-165), one implicit sqlite transaction: statement 0 is the `INSERT OR
REPLACE INTO generations`, statement 1 deletes the existing output rows for
this id, statements `2 .. 2+n-1` insert the `n` outputs, and statement
`2+n` is the `conn.commit()`. -/
def save_generation_attempt (L : PyLibs) (s : Store) (failAt : Option Nat)
    (generation_id model_string model_category : String) (input_params : Json)
    (outputs : List ProcessedOutput) (thumbnail_path : Option String)
    (now : String) : Except PyErr Store :=
  if failAt = some 0 then .error .operationalError
  else if failAt = some 1 then .error .operationalError
  else
    match insertOutputRows L failAt generation_id 2 s.nextOutputId outputs with
    | .error e => .error e
    | .ok newRows =>
      if failAt = some (2 + outputs.length) then .error .operationalError
      else
        .ok { generations := s.generations.filter (fun g => g.id != generation_id)
                ++ [newGenRow L generation_id model_string model_category
                      input_params thumbnail_path now]
              outputs := s.outputs.filter (fun r => r.generation_id != generation_id)
                ++ newRows
              nextOutputId := s.nextOutputId + outputs.length
              schemas := s.schemas }

/-- `save_generation` (gallery_database.py lines 117-171). Any raise inside
the transaction is caught after `_get_connection` has rolled the
transaction back, and the call returns `False` with the store untouched;
otherwise the committed store is in place and the call returns `True`. -/
def save_generation (L : PyLibs) (s : Store) (failAt : Option Nat)
    (generation_id model_string model_category : String) (input_params : Json)
    (outputs : List ProcessedOutput) (thumbnail_path : Option String)
    (now : String) : Store × Bool :=
  match save_generation_attempt L s failAt generation_id model_string
      model_category input_params outputs thumbnail_path now with
  | .ok s2 => (s2, true)
  | .error _ => (s, false)

/-- The body of `get_generation_by_id` (gallery_database.py lines 258-288)
up to its exception handler. A missing id returns `None`; for an existing
row the outputs are fetched and then the `GenerationRecord(...)`
construction reads `row["rating"]` — but `rating` is not a column of the
`generations` table, so `sqlite3.Row` raises `IndexError` (and the
dataclass has no `rating`/`notes` fields either, so the constructor call
could never succeed). -/
def get_generation_by_id_core (s : Store) (generation_id : String) :
    Except PyErr (Option GenerationRecord) :=
  match s.generations.find? (fun g => g.id == generation_id) with
  | none => .ok none
  | some _row => do
      let _outs := get_outputs_for_generation s generation_id
      let _ ← rowKey "rating"
      let _ ← rowKey "notes"
      .error .typeError

/-- `get_generation_by_id` with its `except Exception: return None` handler.
The stray `self.get_generations(limit=1, offset=0)` call at the top of the
source function is a discarded read and has no effect on the store. -/
def get_generation_by_id (s : Store) (generation_id : String) :
    Option GenerationRecord :=
  match get_generation_by_id_core s generation_id with
  | .ok r => r
  | .error _ => none

/-- SQLite `LIKE "%q%"` (ASCII-case-insensitive substring containment).
`%`/`_` wildcards inside the query string are not modelled: the only
statement using this predicate never survives preparation (see
`search_generations_core`). -/
def likeContains (hay pat : String) : Bool :=
  charsContains (strLower hay).data (strLower pat).data

/-- The body of `search_generations` (gallery_database.py lines 290-329) up
to its exception handler. The SQL references `g.model_string`,
`g.input_params` and `g.notes`; name resolution happens when the statement
is prepared, and `notes` is not a column of the `generations` table, so
every call raises `OperationalError` before reading any row. The match /
order / limit semantics after the column checks is therefore unreachable
(and necessarily omits the `g.notes LIKE ?` disjunct — there is no such
value to read). -/
def search_generations_core (s : Store) (query : String) (limit : Nat) :
    Except PyErr (List GenerationRecord) := do
  let _ ← sqlGenColumn "model_string"
  let _ ← sqlGenColumn "input_params"
  let _ ← sqlGenColumn "notes"
  let rows :=
    ((s.generations.filter fun g =>
        likeContains g.model_string query || likeContains g.input_params query).mergeSort
      fun a b => b.created_at ≤ a.created_at).take limit
  .ok (rows.map (recordOfRow s))

/-- `search_generations` with its `except Exception: return []` handler. -/
def search_generations (s : Store) (query : String) (limit : Nat) :
    List GenerationRecord :=
  match search_generations_core s query limit with
  | .ok rs => rs
  | .error _ => []

/-- `delete_generation` (gallery_database.py lines 331-369). The reads of
`file_path`/`thumbnail_path` touch no state; the one mutating statement is
`DELETE FROM generations WHERE id = ?`. The connection never issues
`PRAGMA foreign_keys = ON` (Python sqlite3 leaves foreign-key enforcement
off by default), so the `ON DELETE CASCADE` declared on
`generation_outputs.generation_id` does not fire and the output rows stay
behind. The `os.remove` calls after the commit touch only the disk, and
their failures are logged, not raised. `fail` is the oracle for an
exception before the commit, which rolls everything back. -/
def delete_generation (s : Store) (fail : Bool) (generation_id : String) :
    Store × Bool :=
  if fail then (s, false)
  else ({ s with generations := s.generations.filter fun g => g.id != generation_id },
        true)

/-- `toggle_favorite` (gallery_database.py lines 371-387):
`UPDATE generations SET favorite = NOT favorite WHERE id = ?`, returning
`True` whether or not any row matched. -/
def toggle_favorite (s : Store) (fail : Bool) (generation_id : String) :
    Store × Bool :=
  if fail then (s, false)
  else ({ s with generations := s.generations.map fun g =>
            if g.id == generation_id then { g with favorite := !g.favorite } else g },
        true)

/-- `cache_model_schema` (gallery_database.py lines 527-543):
`INSERT OR REPLACE INTO model_schemas`. -/
def cache_model_schema (L : PyLibs) (s : Store) (fail : Bool)
    (model_string : String) (schema_data : Json) (now : String) : Store × Bool :=
  if fail then (s, false)
  else ({ s with schemas :=
            s.schemas.filter (fun p => p.1 != model_string)
              ++ [(model_string, L.pyDumps schema_data, now)] },
        true)

/-- The `JOIN generation_outputs go ... JOIN generations g` row set read at
the top of `sync_with_filesystem` (gallery lines 456-460): output rows whose
generation exists. -/
def syncJoined (s : Store) : List OutputRow :=
  s.outputs.filter fun r => s.generations.any fun g => g.id == r.generation_id

/-- The `missing_outputs` ids collected by `sync_with_filesystem` (gallery
lines 465-467): joined rows with a truthy `file_path` that does not exist. -/
def syncMissingOutputIds (s : Store) (fileExists : String → Bool) : List Nat :=
  ((syncJoined s).filter fun r =>
    r.file_path != "" && !fileExists r.file_path).map (·.rowId)

/-- The `missing_thumbnails` generation ids (gallery lines 469-470): joined
rows whose generation has a truthy `thumbnail_path` that does not exist. -/
def syncMissingThumbIds (s : Store) (fileExists : String → Bool) : List String :=
  (syncJoined s).filterMap fun r =>
    match s.generations.find? (fun g => g.id == r.generation_id) with
    | some g =>
      match g.thumbnail_path with
      | some t => if t != "" && !fileExists t then some r.generation_id else none
      | none => none
    | none => none

/-- The `generation_outputs` table after the `DELETE ... WHERE id = ?` loop
of `sync_with_filesystem` (gallery lines 473-475). -/
def syncOutputs2 (s : Store) (fileExists : String → Bool) : List OutputRow :=
  s.outputs.filter fun r => !(syncMissingOutputIds s fileExists).contains r.rowId

/-- The `UPDATE generations SET thumbnail_path = NULL` loop of
`sync_with_filesystem` (gallery lines 478-483), applied to one row. -/
def syncThumbClear (s : Store) (fileExists : String → Bool) (g : GenRow) : GenRow :=
  if (syncMissingThumbIds s fileExists).contains g.id then
    { g with thumbnail_path := none }
  else g

/-- The database half of `sync_with_filesystem` (gallery_database.py lines
449-525), against an `os.path.exists` oracle: (1) delete joined output rows
whose truthy `file_path` does not exist, (2) null out truthy thumbnail
paths that do not exist (only for generations that appear in the join),
(3) delete generations left without any output row. The orphan-file loop
after these statements deletes only disk files; `fail` models an exception
inside the connection, which rolls the whole call back. -/
def sync_with_filesystem_db (s : Store) (fail : Bool)
    (fileExists : String → Bool) : Store :=
  if fail then s
  else
    { s with
      generations := (s.generations.map (syncThumbClear s fileExists)).filter
        fun g => (syncOutputs2 s fileExists).any fun r => r.generation_id == g.id
      outputs := syncOutputs2 s fileExists }

/-! ## Observation helpers and concrete fixtures used by the theorems -/

/-- The data an output row exposes apart from its autoincrement id and
owning generation: exactly the values `save_generation` copies out of a
`ProcessedOutput`. -/
def rowView (r : OutputRow) : String × Option String × Option Nat × Option String
    × Option Nat × Option Nat × Option ℚ × Option String :=
  (r.output_type, some r.file_path, r.file_size, r.mime_type, r.width, r.height,
   r.duration, r.metadata)

/-- The same view computed from the `ProcessedOutput` being saved. -/
def outView (L : PyLibs) (o : ProcessedOutput) : String × Option String × Option Nat
    × Option String × Option Nat × Option Nat × Option ℚ × Option String :=
  (o.type.value, o.file_path, o.file_size, o.mime_type, o.width, o.height,
   o.duration, serializedMeta L o)

/-- The favorite flag of the generation with a given id, `none` when no such
row exists. -/
def favOf (s : Store) (generation_id : String) : Option Bool :=
  (s.generations.find? (fun g => g.id == generation_id)).map (·.favorite)

/-- A fixed instantiation of the abstract Python library functions, used
when a theorem evaluates the embedded code on one concrete input. -/
def pyLibs0 : PyLibs :=
  { pyDumps := fun _ => "{}"
    pyDumpsIndent2 := fun _ => "{}"
    guessMime := fun _ => none
    guessExt := fun _ => none
    b64len := fun _ => none }

/-- A persisted image output, as `process_prediction_output` would deliver
it. -/
def outA : ProcessedOutput :=
  { type := .IMAGE
    data := .str "https://example.test/a.png"
    file_path := some "/out/images/t_gen_2_000.png"
    mime_type := some "image/png"
    file_size := some 54321
    width := some 800
    height := some 600 }

/-- A persisted text output. -/
def outB : ProcessedOutput :=
  { type := .TEXT
    data := .str "hello world"
    file_path := some "/out/text/t_gen_2_001.txt"
    mime_type := some "text/plain"
    file_size := some 11 }

/-- A `generations` row for the fixtures. -/
def genRow1 : GenRow :=
  { id := "gen_1"
    model_string := "acme/model"
    model_category := some "image-generation"
    input_params := "{}"
    created_at := "2024-01-01 00:00:00"
    favorite := false }

/-- An output row owned by `gen_1`. -/
def outRow1 : OutputRow :=
  { rowId := 1
    generation_id := "gen_1"
    output_type := "image"
    file_path := "/out/images/a.png"
    file_size := some 10
    mime_type := some "image/png" }

/-- A store holding one generation (`gen_1`) with one output row. -/
def storeGen1 : Store :=
  { generations := [genRow1], outputs := [outRow1], nextOutputId := 2 }

/-- A store holding one favorited generation `g1` with one output row. -/
def storeFav : Store :=
  { generations := [{ genRow1 with id := "g1", favorite := true }]
    outputs := [{ outRow1 with generation_id := "g1" }]
    nextOutputId := 2 }

/-- The result of saving generation `gen_2` with two outputs into an empty
store. -/
def savedGen2 : Store × Bool :=
  save_generation pyLibs0 {} none "gen_2" "acme/model" "image-generation"
    (.obj []) [outA, outB] none "2024-01-02 00:00:00"

/-- The order hint declared by the provider for a property name (`x-order`
in the raw schema), before any defaulting. -/
def declaredHint (properties : List (String × RawParamDef)) (n : String) : Option Int :=
  (properties.lookup n).bind (·.xOrder)

/-- The ordering relation claimed for the parsed parameter list: an entry
with a declared hint before one without is fine, hinted pairs must be
ascending, an unhinted entry must never precede a hinted one. Tie order
among unhinted entries is not constrained here, which only weakens the
claim being refuted. -/
def c5ClaimPair (properties : List (String × RawParamDef))
    (p q : ParameterDefinition) : Bool :=
  match declaredHint properties p.name, declaredHint properties q.name with
  | some a, some b => a ≤ b
  | some _, none => true
  | none, some _ => false
  | none, none => true

/-- Two raw schema properties: `a` (no `x-order`) before `b` (`x-order: 0`)
in provider order. -/
def exC5props : List (String × RawParamDef) :=
  [("a", {}), ("b", { xOrder := some 0 })]

/-- A schema with one integer parameter `steps` carrying a declared
minimum. -/
def schemaSteps : ModelSchema :=
  { model_string := "acme/model"
    input_parameters :=
      [{ name := "steps", type := .INTEGER, title := "Steps", description := ""
         minimum := some 1 }]
    output_definition := { type := "array" } }

/-- A required string parameter `p`. -/
def pParam : ParameterDefinition :=
  { name := "p", type := .STRING, title := "p", description := "", required := true }

/-- A numeric parameter `q` with a declared minimum. -/
def qParam : ParameterDefinition :=
  { name := "q", type := .NUMBER, title := "q", description := "", minimum := some 1 }

/-- A schema with required `p` and bounded numeric `q`. -/
def schemaPQ : ModelSchema :=
  { model_string := "acme/model"
    input_parameters := [pParam, qParam]
    output_definition := { type := "array" } }

/-- The outcome of processing one indexed raw element, viewed as an
`Option`: `none` both for a dropped element and (vacuously, in contexts
where the whole call succeeded) for a raising one. -/
def singleOutcome (L : PyLibs) (outputDir timestamp : String) (fxs : List ItemFx)
    (generation_id : String) (p : Nat × RawItem) : Option ProcessedOutput :=
  match process_single_output L outputDir timestamp (fxs.getD p.1 {}) p.2
      generation_id p.1 with
  | .ok o => o
  | .error _ => none

/-! ## General lemmas -/

lemma map_eq_self_of_id_on_mem {α : Type _} {f : α → α} :
    ∀ {l : List α}, (∀ a ∈ l, f a = a) → l.map f = l
  | [], _ => rfl
  | a :: t, h => by
    have ha := h a (List.mem_cons_self a t)
    have ht := map_eq_self_of_id_on_mem fun x hx => h x (List.mem_cons_of_mem a hx)
    simp [ha, ht]

lemma filter_key_of_ne {α : Type _} (key : α → String) (l : List α) {a b : String}
    (h : b ≠ a) :
    (l.filter fun x => key x != a).filter (fun x => key x == b)
      = l.filter fun x => key x == b := by
  rw [List.filter_filter]
  refine List.filter_congr fun x _ => ?_
  by_cases hx : key x = b
  · simp [hx, h]
  · simp [hx]

lemma filter_key_self_nil {α : Type _} (key : α → String) (l : List α) (a : String) :
    (l.filter fun x => key x != a).filter (fun x => key x == a) = [] := by
  rw [List.filter_filter]
  refine List.filter_eq_nil_iff.mpr fun x _ => ?_
  by_cases hx : key x = a <;> simp [hx]

/-! ## C4 -/

/-- C4: the claim says `search_generations(q, limit)` returns exactly the
stored generations matching `q` — in particular a generation whose model
string contains `q`. In the code the query references `g.notes`, a column
`_init_database` never creates, so statement preparation raises
`OperationalError` on every call and the handler returns the empty list:
`search_generations` is constantly `[]`, even for `storeGen1`, whose single
generation has model string `acme/model` matching the query `acme`. -/
theorem c4_search_generations_always_empty :
    (∀ (s : Store) (q : String) (lim : Nat), search_generations s q lim = []) ∧
    storeGen1.generations.map (·.model_string) = ["acme/model"] ∧
    likeContains "acme/model" "acme" = true ∧
    search_generations storeGen1 "acme" 50 = [] := by
  refine ⟨fun s q lim => rfl, rfl, by decide, rfl⟩

/-! ## C1 -/

/-- C1: the claim says a saved generation is returned by
`get_generation_by_id` with its outputs. In the code the record
construction reads `row["rating"]` — not a column of the `generations`
table — so `sqlite3.Row` raises, the handler catches, and the function
returns `None` for every store and id. Concretely: saving `gen_2` with two
outputs succeeds and stores the row and both output rows, yet
`get_generation_by_id` still returns `None`. -/
theorem c1_get_generation_by_id_never_some :
    (∀ (s : Store) (generation_id : String),
        get_generation_by_id s generation_id = none) ∧
    savedGen2.2 = true ∧
    savedGen2.1.generations.map (·.id) = ["gen_2"] ∧
    (get_outputs_for_generation savedGen2.1 "gen_2").length = 2 := by
  refine ⟨?_, rfl, rfl, ?_⟩
  · intro s generation_id
    unfold get_generation_by_id get_generation_by_id_core
    cases h : s.generations.find? (fun g => g.id == generation_id) <;> rfl
  · have hfil : savedGen2.1.outputs.filter
        (fun r => r.generation_id == "gen_2") = savedGen2.1.outputs := rfl
    unfold get_outputs_for_generation
    rw [hfil, List.mergeSort_of_sorted (by decide)]
    rfl

/-! ## C2 -/

/-- C2: the claim says `delete_generation(id)` removes the
`generation_outputs` rows by cascading delete together with the
`generations` row. The code never issues `PRAGMA foreign_keys = ON`, and
Python sqlite3 leaves foreign-key enforcement off by default, so the
declared `ON DELETE CASCADE` does not fire: deleting `gen_1` from
`storeGen1` removes the generation row, returns `True`, and leaves the
output row orphaned in `generation_outputs`. (The final conjunct — a
subsequent `get_generation_by_id` returns none — does hold, though for the
C1 reason it holds for every id.) -/
theorem c2_delete_generation_leaves_output_rows :
    delete_generation storeGen1 false "gen_1"
      = ({ storeGen1 with generations := [] }, true) ∧
    (delete_generation storeGen1 false "gen_1").1.outputs = [outRow1] ∧
    get_generation_by_id (delete_generation storeGen1 false "gen_1").1 "gen_1"
      = none :=
  ⟨rfl, rfl, rfl⟩

/-! ## C10 -/

/-- C10: for an id with no row in `generations`, `toggle_favorite` runs an
`UPDATE` matching no row and `delete_generation` a `DELETE` matching no row
(and, with foreign keys unenforced, no cascade either); both commit, return
`True`, and leave the store exactly as it was. -/
theorem c10_missing_id_noops (s : Store) (generation_id : String)
    (h : ∀ g ∈ s.generations, g.id ≠ generation_id) :
    toggle_favorite s false generation_id = (s, true) ∧
    delete_generation s false generation_id = (s, true) := by
  constructor
  · have hm : (s.generations.map fun g =>
        if g.id == generation_id then { g with favorite := !g.favorite } else g)
        = s.generations :=
      map_eq_self_of_id_on_mem fun g hg => by
        have hb : (g.id == generation_id) = false := by simp [h g hg]
        simp [hb]
    show ({ s with generations := s.generations.map fun g =>
        if g.id == generation_id then { g with favorite := !g.favorite } else g },
      true) = (s, true)
    rw [hm]
  · have hf : (s.generations.filter fun g => g.id != generation_id)
        = s.generations :=
      List.filter_eq_self.mpr fun g hg => by simp [h g hg]
    show ({ s with generations := s.generations.filter fun g =>
        g.id != generation_id }, true) = (s, true)
    rw [hf]

/-- C10 witness: the generation `gen_404` is absent from `storeGen1`, and
both calls return `(storeGen1, true)`. -/
theorem c10_missing_id_noops_witness :
    toggle_favorite storeGen1 false "gen_404" = (storeGen1, true) ∧
    delete_generation storeGen1 false "gen_404" = (storeGen1, true) :=
  c10_missing_id_noops storeGen1 "gen_404" (by decide)

/-! ## Validation lemmas (shared by C6 and C9) -/

lemma rangeErrs_error {p : ParameterDefinition} {v : PyValue} {e : PyErr}
    (h : rangeErrs p v = .error e) :
    e = .typeError ∧ (p.type = .INTEGER ∨ p.type = .NUMBER) ∧ pyToRat v = none ∧
      (p.minimum ≠ none ∨ p.maximum ≠ none) := by
  unfold rangeErrs at h
  by_cases hty : p.type = .INTEGER ∨ p.type = .NUMBER
  · rw [if_pos hty] at h
    rcases hmin : p.minimum with _ | m1 <;> rcases hmax : p.maximum with _ | m2 <;>
      rcases hv : pyToRat v with _ | r <;>
      rw [hmin, hmax, hv] at h <;>
      simp only [Except.error.injEq, reduceCtorEq] at h
    · exact ⟨h.symm, hty, rfl, Or.inr (by simp [hmax])⟩
    · exact ⟨h.symm, hty, rfl, Or.inl (by simp [hmin])⟩
    · exact ⟨h.symm, hty, rfl, Or.inl (by simp [hmin])⟩
  · rw [if_neg hty] at h
    exact absurd h (by simp)

lemma constraintErrs_error {input : List (String × PyValue)} {e : PyErr} :
    ∀ {ps : List ParameterDefinition}, constraintErrs ps input = .error e →
      e = .typeError ∧ ∃ p ∈ ps, ∃ v, input.lookup p.name = some v ∧
        (p.type = .INTEGER ∨ p.type = .NUMBER) ∧ pyToRat v = none ∧
        (p.minimum ≠ none ∨ p.maximum ≠ none)
  | [], h => by simp [constraintErrs] at h
  | p :: rest, h => by
    unfold constraintErrs at h
    split at h
    · obtain ⟨he, q, hq, hfacts⟩ := constraintErrs_error h
      exact ⟨he, q, List.mem_cons_of_mem p hq, hfacts⟩
    · rename_i v hl
      split at h
      · rename_i e1 rest2 hr
        simp only [Except.error.injEq] at h
        obtain ⟨he, hty, hv, hb⟩ := rangeErrs_error hr
        exact ⟨h ▸ he, p, List.mem_cons_self p rest, v, hl, hty, hv, hb⟩
      · rename_i rerrs e2 hr hc
        simp only [Except.error.injEq] at h
        obtain ⟨he, q, hq, hfacts⟩ := constraintErrs_error hc
        exact ⟨h ▸ he, q, List.mem_cons_of_mem p hq, hfacts⟩
      · simp at h

/-! ## C6 -/

/-- C6 counterexample: `validate` is not total. With parameter `steps`
declared `INTEGER` with `minimum = 1` and the candidate value the string
`"abc"`, the range check runs `"abc" < 1`, which raises `TypeError` out of
the call instead of returning `(ok, errors)`. -/
theorem c6_counterexample_validate_raises :
    validate_input_parameters schemaSteps [("steps", PyValue.vStr "abc")]
      = .error .typeError := rfl

/-- C6 amended: `validate` neither mutates the value map (it is read-only
by construction) nor raises, except that a parameter of declared type
INTEGER or NUMBER with a declared minimum or maximum whose supplied value
is non-numeric makes the range comparison raise `TypeError`; whenever the
call returns, `ok` is true exactly when `errors` is empty. -/
theorem c6_amended_validate_partial_totality (schema : ModelSchema)
    (input : List (String × PyValue)) :
    (∀ (ok : Bool) (errs : List String),
        validate_input_parameters schema input = .ok (ok, errs) →
        ok = errs.isEmpty) ∧
    (∀ e, validate_input_parameters schema input = .error e →
        e = .typeError ∧ ∃ p ∈ schema.input_parameters, ∃ v,
          input.lookup p.name = some v ∧
          (p.type = .INTEGER ∨ p.type = .NUMBER) ∧ pyToRat v = none ∧
          (p.minimum ≠ none ∨ p.maximum ≠ none)) := by
  constructor
  · intro ok errs heq
    unfold validate_input_parameters at heq
    cases hc : constraintErrs schema.input_parameters input with
    | ok c =>
      rw [hc] at heq
      simp only [Except.ok.injEq, Prod.mk.injEq] at heq
      rw [← heq.1, ← heq.2]
    | error e =>
      rw [hc] at heq
      simp at heq
  · intro e heq
    unfold validate_input_parameters at heq
    cases hc : constraintErrs schema.input_parameters input with
    | ok c =>
      rw [hc] at heq
      simp at heq
    | error e2 =>
      rw [hc] at heq
      simp only [Except.error.injEq] at heq
      exact heq ▸ constraintErrs_error hc

/-- C6 witness: on `schemaSteps` with the valid value `5`, the call returns
`.ok (true, [])`, and the amended theorem yields `ok = errors.isEmpty`
there. -/
theorem c6_amended_validate_partial_totality_witness :
    (true : Bool) = ([] : List String).isEmpty :=
  (c6_amended_validate_partial_totality schemaSteps
    [("steps", PyValue.vInt 5)]).1 true [] rfl

/-! ## C9 -/

/-- C9 counterexample: `p` is required by `schemaPQ` and absent from the
map `{q: "abc"}`, yet `validate` does not return `ok = false` with a
message naming `p` — it raises `TypeError` out of the range check on `q`
before reaching its `return`. -/
theorem c9_counterexample_missing_required_raises :
    validate_input_parameters schemaPQ [("q", PyValue.vStr "abc")]
      = .error .typeError := rfl

/-- C9 amended: whenever `validate` returns at all (i.e. no range check
raised), a required parameter `p` absent from the input map forces
`ok = false` together with the exact message `Required parameter (p) is
missing`, which mentions `p`. -/
theorem c9_amended_missing_required_reported (schema : ModelSchema)
    (input : List (String × PyValue)) (p : ParameterDefinition)
    (hp : p ∈ schema.input_parameters) (hreq : p.required = true)
    (habs : (input.map Prod.fst).contains p.name = false) :
    ∀ (ok : Bool) (errs : List String),
      validate_input_parameters schema input = .ok (ok, errs) →
      ok = false ∧ requiredParamMsg p.name ∈ errs := by
  intro ok errs heq
  unfold validate_input_parameters at heq
  cases hc : constraintErrs schema.input_parameters input with
  | error e =>
    rw [hc] at heq
    simp at heq
  | ok c =>
    rw [hc] at heq
    simp only [Except.ok.injEq, Prod.mk.injEq] at heq
    have hnamemem : p.name ∈
        ((schema.input_parameters.filter (·.required)).map (·.name)) :=
      List.mem_map_of_mem _ (List.mem_filter.mpr ⟨hp, by simp [hreq]⟩)
    have hmsg : requiredParamMsg p.name ∈
        ((schema.input_parameters.filter (·.required)).map (·.name)).filterMap
          (fun k => if (input.map Prod.fst).contains k then none
            else some (requiredParamMsg k)) := by
      refine List.mem_filterMap.mpr ⟨p.name, hnamemem, ?_⟩
      rw [habs]
      simp
    have hmem : requiredParamMsg p.name ∈ errs := by
      rw [← heq.2]
      exact List.mem_append.mpr (Or.inl (List.mem_append.mpr (Or.inr hmsg)))
    refine ⟨?_, hmem⟩
    rw [← heq.1, heq.2]
    cases errs with
    | nil => exact absurd hmem (List.not_mem_nil _)
    | cons a t => rfl

/-- C9 witness: `p` is required by `schemaPQ` and absent from the empty
map; `validate` returns `.ok (false, [Required parameter (p) is missing])`
and the amended theorem applies. -/
theorem c9_amended_missing_required_reported_witness :
    (false : Bool) = false ∧
      requiredParamMsg "p" ∈ [requiredParamMsg "p"] :=
  c9_amended_missing_required_reported schemaPQ [] pParam
    (List.mem_cons_self pParam [qParam]) rfl rfl false [requiredParamMsg "p"] rfl

/-! ## C5 -/

/-- C5 counterexample: in the provider schema `exC5props`, `a` declares no
order hint and `b` declares hint `0`, yet the parsed list is `[a, b]`:
Python `p.x_order or 999` treats the declared hint `0` as falsy and replaces
it by the `999` sentinel, so `b` ties with the hint-less `a` instead of
preceding it, violating the claimed order (an entry lacking a hint never
before an entry that has one). -/
theorem c5_counterexample_hint_zero_misordered :
    declaredHint exC5props "a" = none ∧
    declaredHint exC5props "b" = some 0 ∧
    (parse_input_parameters exC5props []).map (·.name) = ["a", "b"] ∧
    ¬ (parse_input_parameters exC5props []).Pairwise
        (fun p q => c5ClaimPair exC5props p q = true) := by
  have hsorted : (pre_input_parameters exC5props []).Pairwise
      (fun p q => (decide (sortKeyEff p ≤ sortKeyEff q)) = true) := by decide
  have heq : parse_input_parameters exC5props [] = pre_input_parameters exC5props [] :=
    List.mergeSort_of_sorted hsorted
  refine ⟨rfl, rfl, ?_, ?_⟩
  · rw [heq]; rfl
  · rw [heq]; decide

/-- C5 amended: the parsed list is the stable sort of the provider-ordered
entries by the effective key `sortKeyEff` (the declared hint, with a missing
hint or a declared hint of `0` both replaced by the sentinel `999`): it is a
permutation of the provider-ordered entries, ascending in the effective key,
and entries sharing an effective key — in particular all hint-less and
hint-`0` entries — keep their provider order. Hence entries lacking a hint
sort after entries with hints below `999` and before entries with hints
above `999`, but a declared hint of `0` behaves like a missing hint. -/
theorem c5_amended_stable_sort_by_effective_key
    (properties : List (String × RawParamDef)) (required_fields : List String) :
    (parse_input_parameters properties required_fields).Perm
      (pre_input_parameters properties required_fields) ∧
    (parse_input_parameters properties required_fields).Pairwise
      (fun p q => sortKeyEff p ≤ sortKeyEff q) ∧
    ∀ k : Int,
      (parse_input_parameters properties required_fields).filter
          (fun p => sortKeyEff p == k)
        = (pre_input_parameters properties required_fields).filter
            (fun p => sortKeyEff p == k) := by
  have htrans : ∀ a b c : ParameterDefinition,
      (decide (sortKeyEff a ≤ sortKeyEff b)) = true →
      (decide (sortKeyEff b ≤ sortKeyEff c)) = true →
      (decide (sortKeyEff a ≤ sortKeyEff c)) = true := by
    intro a b c hab hbc
    simp only [decide_eq_true_eq] at *
    exact le_trans hab hbc
  have htotal : ∀ a b : ParameterDefinition,
      ((decide (sortKeyEff a ≤ sortKeyEff b))
        || (decide (sortKeyEff b ≤ sortKeyEff a))) = true := by
    intro a b
    rcases Int.le_total (sortKeyEff a) (sortKeyEff b) with h | h <;> simp [h]
  refine ⟨List.mergeSort_perm _ _, ?_, ?_⟩
  · exact (List.sorted_mergeSort htrans htotal
      (pre_input_parameters properties required_fields)).imp
      fun h => of_decide_eq_true h
  · intro k
    have hmemk : ∀ a ∈ (pre_input_parameters properties required_fields).filter
        (fun p => sortKeyEff p == k), sortKeyEff a = k := by
      intro a ha
      have := List.of_mem_filter ha
      simpa using this
    have h1 : ((pre_input_parameters properties required_fields).filter
        (fun p => sortKeyEff p == k)).Pairwise
        (fun p q => (decide (sortKeyEff p ≤ sortKeyEff q)) = true) := by
      refine List.pairwise_of_forall_mem_list fun a ha b hb => ?_
      rw [hmemk a ha, hmemk b hb]
      simp
    have h3 : ((pre_input_parameters properties required_fields).filter
        (fun p => sortKeyEff p == k)).Sublist
        (parse_input_parameters properties required_fields) :=
      List.sublist_mergeSort htrans htotal h1 (List.filter_sublist _)
    have h4 : ((pre_input_parameters properties required_fields).filter
        (fun p => sortKeyEff p == k)).filter (fun p => sortKeyEff p == k)
        = (pre_input_parameters properties required_fields).filter
            (fun p => sortKeyEff p == k) :=
      List.filter_eq_self.mpr fun a ha => by rw [hmemk a ha]; simp
    have h5 := h3.filter (fun p => sortKeyEff p == k)
    rw [h4] at h5
    have h6 : ((parse_input_parameters properties required_fields).filter
        (fun p => sortKeyEff p == k)).length
        = ((pre_input_parameters properties required_fields).filter
            (fun p => sortKeyEff p == k)).length :=
      ((List.mergeSort_perm _ _).filter _).length_eq
    exact (h5.eq_of_length h6.symm).symm

/-! ## C8 -/

lemma processItems_ok {L : PyLibs} {outputDir timestamp : String}
    {fxs : List ItemFx} {generation_id : String} :
    ∀ {items : List RawItem} {i : Nat} {l : List ProcessedOutput},
      processItems L outputDir timestamp fxs generation_id i items = .ok l →
      l = (List.enumFrom i items).filterMap
            (singleOutcome L outputDir timestamp fxs generation_id)
  | [], i, l, h => by
    simp only [processItems, Except.ok.injEq] at h
    rw [← h]
    rfl
  | item :: rest, i, l, h => by
    unfold processItems at h
    split at h
    · exact absurd h (by simp)
    · exact absurd h (by simp)
    · rename_i out tail hsingle htail
      simp only [Except.ok.injEq] at h
      have ih := processItems_ok htail
      rw [← h, List.enumFrom_cons]
      simp only [List.filterMap_cons]
      have hout : singleOutcome L outputDir timestamp fxs generation_id (i, item)
          = some out := by
        unfold singleOutcome
        rw [hsingle]
      rw [hout, ih]
    · rename_i tail hsingle htail
      simp only [Except.ok.injEq] at h
      have ih := processItems_ok htail
      rw [← h, List.enumFrom_cons]
      simp only [List.filterMap_cons]
      have hout : singleOutcome L outputDir timestamp fxs generation_id (i, item)
          = none := by
        unfold singleOutcome
        rw [hsingle]
      rw [hout, ih]

lemma processItems_error {L : PyLibs} {outputDir timestamp : String}
    {fxs : List ItemFx} {generation_id : String} :
    ∀ {items : List RawItem} {i : Nat} {e : PyErr},
      processItems L outputDir timestamp fxs generation_id i items = .error e →
      ∃ p ∈ List.enumFrom i items,
        process_single_output L outputDir timestamp (fxs.getD p.1 {}) p.2
          generation_id p.1 = .error e
  | [], i, e, h => by simp [processItems] at h
  | item :: rest, i, e, h => by
    unfold processItems at h
    split at h
    · rename_i e1 hsingle
      simp only [Except.error.injEq] at h
      exact ⟨(i, item), by rw [List.enumFrom_cons]; exact List.mem_cons_self _ _,
        h ▸ hsingle⟩
    · rename_i e1 hsingle htail
      simp only [Except.error.injEq] at h
      obtain ⟨p, hp, hperr⟩ := processItems_error htail
      exact ⟨p, by rw [List.enumFrom_cons]; exact List.mem_cons_of_mem _ hp,
        h ▸ hperr⟩
    · exact absurd h (by simp)
    · exact absurd h (by simp)

/-- C8 counterexample: a persistence failure does not always drop just the
failing element. A text element takes the `_process_text_output` path,
whose `open`/`write` is not inside any `try`: with the write for element 0
failing, the whole `process_prediction_output` call raises instead of
returning the remaining elements — both for a singleton list and for a
two-element list whose second element would have succeeded. -/
theorem c8_counterexample_text_write_failure_aborts :
    process_prediction_output pyLibs0 "/out" "ts" [{ writeOk := false }]
        (.listOut [.str "hello"]) "gen_9" = .error .writeError ∧
    process_prediction_output pyLibs0 "/out" "ts"
        [{ writeOk := false }, { writeOk := true }]
        (.listOut [.str "item a", .str "item b"]) "gen_9"
      = .error .writeError :=
  ⟨rfl, rfl⟩

/-- C8 amended: `process_prediction_output` normalizes its raw input — a
null input yields `[]`; a non-list input yields at most one entry; a list
of `N` elements, when the call returns at all, yields the in-order
`filterMap` of the per-element outcomes, hence `M ≤ N` entries in input
order, where a caught failure (readable-with-url, http(s)-url or data-URI
element) drops only that element. However a write failure while persisting
a TEXT or JSON element is uncaught: the call then raises, and the raise
originates from one of the elements. -/
theorem c8_amended_normalization (L : PyLibs) (outputDir timestamp : String)
    (fxs : List ItemFx) (generation_id : String) :
    (process_prediction_output L outputDir timestamp fxs .nullOut generation_id
      = .ok []) ∧
    (∀ (item : RawItem) (l : List ProcessedOutput),
      process_prediction_output L outputDir timestamp fxs (.singleOut item)
          generation_id = .ok l → l.length ≤ 1) ∧
    (∀ (items : List RawItem) (l : List ProcessedOutput),
      process_prediction_output L outputDir timestamp fxs (.listOut items)
          generation_id = .ok l →
        l = items.enum.filterMap
              (singleOutcome L outputDir timestamp fxs generation_id) ∧
        l.length ≤ items.length) ∧
    (∀ (items : List RawItem) (e : PyErr),
      process_prediction_output L outputDir timestamp fxs (.listOut items)
          generation_id = .error e →
        ∃ p ∈ items.enum,
          process_single_output L outputDir timestamp (fxs.getD p.1 {}) p.2
            generation_id p.1 = .error e) := by
  refine ⟨rfl, ?_, ?_, ?_⟩
  · intro item l h
    replace h : (match process_single_output L outputDir timestamp (fxs.getD 0 {})
          item generation_id 0 with
        | .error e => (.error e : Except PyErr (List ProcessedOutput))
        | .ok (some out) => .ok [out]
        | .ok none => .ok []) = .ok l := h
    split at h
    · exact absurd h (by simp)
    · simp only [Except.ok.injEq] at h
      rw [← h]
      simp
    · simp only [Except.ok.injEq] at h
      rw [← h]
      simp
  · intro items l h
    replace h : processItems L outputDir timestamp fxs generation_id 0 items
        = .ok l := h
    have hl := processItems_ok h
    refine ⟨hl, ?_⟩
    rw [hl]
    calc (List.filterMap _ (List.enumFrom 0 items)).length
        ≤ (List.enumFrom 0 items).length := List.length_filterMap_le _ _
      _ = items.length := List.enumFrom_length
  · intro items e h
    replace h : processItems L outputDir timestamp fxs generation_id 0 items
        = .error e := h
    exact processItems_error h

/-- C8 witness: a single plain-string output with a succeeding write is
persisted as one TEXT entry, and the amended theorem bounds the result
length by 1 there. -/
theorem c8_amended_normalization_witness :
    process_prediction_output pyLibs0 "/out" "ts" [] (.singleOut (.str "x")) "g"
      = .ok [{ type := .TEXT, data := .str "x",
               file_path := some "/out/text/ts_g_000.txt",
               mime_type := some "text/plain", file_size := some 1 }] ∧
    ([({ type := .TEXT, data := .str "x",
         file_path := some "/out/text/ts_g_000.txt",
         mime_type := some "text/plain", file_size := some 1 } :
        ProcessedOutput)]).length ≤ 1 :=
  ⟨rfl, (c8_amended_normalization pyLibs0 "/out" "ts" [] "g").2.1 (.str "x") _ rfl⟩

/-! ## C3 -/

lemma rowOfOutput_ok {L : PyLibs} {generation_id : String} {rowId : Nat}
    {o : ProcessedOutput} {row : OutputRow}
    (h : rowOfOutput L generation_id rowId o = .ok row) :
    rowView row = outView L o ∧ row.generation_id = generation_id ∧
      row.rowId = rowId := by
  unfold rowOfOutput at h
  cases hfp : o.file_path with
  | none => rw [hfp] at h; exact absurd h (by simp)
  | some fp =>
    rw [hfp] at h
    simp only [Except.ok.injEq] at h
    rw [← h]
    exact ⟨by simp [rowView, outView, hfp], rfl, rfl⟩

lemma insertOutputRows_ok {L : PyLibs} {failAt : Option Nat} {generation_id : String} :
    ∀ {outs : List ProcessedOutput} {opIdx rowId : Nat} {rows : List OutputRow},
      insertOutputRows L failAt generation_id opIdx rowId outs = .ok rows →
      rows.map rowView = outs.map (outView L) ∧
      (∀ r ∈ rows, r.generation_id = generation_id ∧ rowId ≤ r.rowId) ∧
      rows.Pairwise (fun a b => a.rowId ≤ b.rowId)
  | [], opIdx, rowId, rows, h => by
    simp only [insertOutputRows, Except.ok.injEq] at h
    rw [← h]
    exact ⟨rfl, by simp, List.Pairwise.nil⟩
  | o :: rest, opIdx, rowId, rows, h => by
    unfold insertOutputRows at h
    split at h
    · exact absurd h (by simp)
    split at h
    · exact absurd h (by simp)
    · exact absurd h (by simp)
    · rename_i row tail hrow htail
      simp only [Except.ok.injEq] at h
      obtain ⟨hview, hid, hrid⟩ := rowOfOutput_ok hrow
      obtain ⟨ihview, ihmem, ihpair⟩ := insertOutputRows_ok htail
      rw [← h]
      refine ⟨by simp [hview, ihview], ?_, ?_⟩
      · intro r hr
        rcases List.mem_cons.mp hr with hr | hr
        · exact hr ▸ ⟨hid, le_of_eq hrid.symm⟩
        · obtain ⟨h1, h2⟩ := ihmem r hr
          exact ⟨h1, le_trans (Nat.le_succ rowId) h2⟩
      · refine List.pairwise_cons.mpr ⟨?_, ihpair⟩
        intro r hr
        obtain ⟨_, h2⟩ := ihmem r hr
        rw [hrid]
        exact le_trans (Nat.le_succ rowId) h2

lemma save_generation_ok_inv {L : PyLibs} {s : Store} {failAt : Option Nat}
    {generation_id model_string model_category : String} {input_params : Json}
    {outputs : List ProcessedOutput} {thumbnail_path : Option String}
    {now : String} {s2 : Store}
    (h : save_generation L s failAt generation_id model_string model_category
        input_params outputs thumbnail_path now = (s2, true)) :
    ∃ rows, insertOutputRows L failAt generation_id 2 s.nextOutputId outputs
        = .ok rows ∧
      s2 = { generations := s.generations.filter (fun g => g.id != generation_id)
               ++ [newGenRow L generation_id model_string model_category
                     input_params thumbnail_path now]
             outputs := s.outputs.filter (fun r => r.generation_id != generation_id)
               ++ rows
             nextOutputId := s.nextOutputId + outputs.length
             schemas := s.schemas } := by
  unfold save_generation at h
  split at h
  · rename_i s3 hA
    simp only [Prod.mk.injEq] at h
    unfold save_generation_attempt at hA
    split at hA
    · exact absurd hA (by simp)
    split at hA
    · exact absurd hA (by simp)
    split at hA
    · exact absurd hA (by simp)
    · rename_i rows hins
      split at hA
      · exact absurd hA (by simp)
      · simp only [Except.ok.injEq] at hA
        exact ⟨rows, hins, h.1 ▸ hA.symm ▸ rfl⟩
  · rename_i hA
    simp at h

/-- C3: `save_generation` is atomic. Either the whole call fails, returning
`False` with the store unchanged, or it returns `True` and, in the
resulting store, (a) the output rows of the saved id are exactly one row
per given `ProcessedOutput`, in order, carrying its type/path/size/mime/
dimensions/metadata, (b) the output rows of every other id are untouched,
(c) the `generations` rows of every other id are untouched, and (d) the
saved id has exactly the freshly upserted row — so no reader ever observes
a generation whose output-row count differs from the output list last
successfully saved for it. -/
theorem c3_save_generation_atomic (L : PyLibs) (s : Store) (failAt : Option Nat)
    (generation_id model_string model_category : String) (input_params : Json)
    (outputs : List ProcessedOutput) (thumbnail_path : Option String)
    (now : String) :
    save_generation L s failAt generation_id model_string model_category
        input_params outputs thumbnail_path now = (s, false) ∨
    ((save_generation L s failAt generation_id model_string model_category
        input_params outputs thumbnail_path now).2 = true ∧
      ((get_outputs_for_generation (save_generation L s failAt generation_id
          model_string model_category input_params outputs thumbnail_path now).1
          generation_id).map rowView = outputs.map (outView L) ∧
       (get_outputs_for_generation (save_generation L s failAt generation_id
          model_string model_category input_params outputs thumbnail_path now).1
          generation_id).length = outputs.length) ∧
      (∀ gid2, gid2 ≠ generation_id →
        get_outputs_for_generation (save_generation L s failAt generation_id
          model_string model_category input_params outputs thumbnail_path now).1
          gid2 = get_outputs_for_generation s gid2) ∧
      (∀ gid2, gid2 ≠ generation_id →
        (save_generation L s failAt generation_id model_string model_category
          input_params outputs thumbnail_path now).1.generations.filter
          (fun g => g.id == gid2)
          = s.generations.filter (fun g => g.id == gid2)) ∧
      (save_generation L s failAt generation_id model_string model_category
        input_params outputs thumbnail_path now).1.generations.filter
        (fun g => g.id == generation_id)
        = [newGenRow L generation_id model_string model_category input_params
            thumbnail_path now]) := by
  cases hres : save_generation L s failAt generation_id model_string
      model_category input_params outputs thumbnail_path now with
  | mk s2 ok =>
    cases ok with
    | false =>
      left
      suffices hs : s2 = s by rw [hs]
      unfold save_generation at hres
      split at hres
      · simp at hres
      · exact (Prod.mk.injEq .. ▸ hres).1.symm
    | true =>
      right
      obtain ⟨rows, hins, hs2⟩ := save_generation_ok_inv hres
      obtain ⟨hview, hmem, hpair⟩ := insertOutputRows_ok hins
      have houts : get_outputs_for_generation s2 generation_id = rows := by
        unfold get_outputs_for_generation
        rw [hs2]
        show ((s.outputs.filter (fun r => r.generation_id != generation_id)
            ++ rows).filter (fun r => r.generation_id == generation_id)).mergeSort
            _ = rows
        rw [List.filter_append,
          filter_key_self_nil (fun r => r.generation_id) s.outputs generation_id,
          List.nil_append,
          List.filter_eq_self.mpr (fun r hr => by simp [(hmem r hr).1]),
          List.mergeSort_of_sorted (hpair.imp fun hab => by simpa using hab)]
      refine ⟨rfl, ⟨?_, ?_⟩, ?_, ?_, ?_⟩
      · simpa [houts] using hview
      · have := congrArg List.length hview
        simpa [houts] using this
      · intro gid2 hgid2
        unfold get_outputs_for_generation
        rw [hs2]
        show ((s.outputs.filter (fun r => r.generation_id != generation_id)
            ++ rows).filter (fun r => r.generation_id == gid2)).mergeSort _
            = (s.outputs.filter (fun r => r.generation_id == gid2)).mergeSort _
        have hnil : rows.filter (fun r => r.generation_id == gid2) = [] :=
          List.filter_eq_nil_iff.mpr
            fun r hr => by simp [(hmem r hr).1, hgid2.symm]
        rw [List.filter_append,
          filter_key_of_ne (fun r => r.generation_id) s.outputs hgid2,
          hnil, List.append_nil]
      · intro gid2 hgid2
        rw [hs2]
        show ((s.generations.filter (fun g => g.id != generation_id)
            ++ [newGenRow L generation_id model_string model_category
                  input_params thumbnail_path now]).filter
            (fun g => g.id == gid2))
            = s.generations.filter (fun g => g.id == gid2)
        rw [List.filter_append,
          filter_key_of_ne (fun g => g.id) s.generations hgid2]
        have : ([newGenRow L generation_id model_string model_category
            input_params thumbnail_path now].filter (fun g => g.id == gid2)) = [] := by
          simp [newGenRow, hgid2.symm]
        rw [this, List.append_nil]
      · rw [hs2]
        show ((s.generations.filter (fun g => g.id != generation_id)
            ++ [newGenRow L generation_id model_string model_category
                  input_params thumbnail_path now]).filter
            (fun g => g.id == generation_id))
            = [newGenRow L generation_id model_string model_category input_params
                thumbnail_path now]
        rw [List.filter_append,
          filter_key_self_nil (fun g => g.id) s.generations generation_id,
          List.nil_append]
        simp [newGenRow]

/-- C3 witness: saving `g9` with one output into `storeGen1` succeeds and
the success branch of the atomicity theorem applies: one output row for
`g9`, and the rows of the untouched `gen_1` unchanged. -/
theorem c3_save_generation_atomic_witness :
    (save_generation pyLibs0 storeGen1 none "g9" "m" "c" (.obj []) [outA]
        none "t1").2 = true ∧
    (get_outputs_for_generation (save_generation pyLibs0 storeGen1 none "g9" "m"
        "c" (.obj []) [outA] none "t1").1 "g9").length = 1 ∧
    get_outputs_for_generation (save_generation pyLibs0 storeGen1 none "g9" "m"
        "c" (.obj []) [outA] none "t1").1 "gen_1"
      = get_outputs_for_generation storeGen1 "gen_1" := by
  have h := c3_save_generation_atomic pyLibs0 storeGen1 none "g9" "m" "c"
    (.obj []) [outA] none "t1"
  rcases h with h | h
  · exact absurd (congrArg Prod.snd h) (by decide)
  · exact ⟨h.1, h.2.1.2, h.2.2.1 "gen_1" (by decide)⟩

/-! ## C7 -/

lemma find?_filter_of_imp {α : Type _} {p q : α → Bool}
    (h : ∀ a, p a = true → q a = true) :
    ∀ l : List α, (l.filter q).find? p = l.find? p
  | [] => rfl
  | a :: t => by
    simp only [List.filter_cons, List.find?_cons]
    by_cases hq : q a = true
    · rw [if_pos hq, List.find?_cons]
      cases hp : p a
      · exact find?_filter_of_imp h t
      · rfl
    · have hp : p a = false := by
        cases hpa : p a
        · rfl
        · exact absurd (h a hpa) hq
      rw [if_neg hq, hp]
      exact find?_filter_of_imp h t

lemma find?_fav_map_toggle {gid gid2 : String} (h : gid ≠ gid2) :
    ∀ l : List GenRow,
      (((l.map fun g =>
          if g.id == gid2 then { g with favorite := !g.favorite } else g).find?
            (fun g => g.id == gid)).map (·.favorite))
        = ((l.find? (fun g => g.id == gid)).map (·.favorite))
  | [] => rfl
  | g :: t => by
    rw [List.map_cons, List.find?_cons, List.find?_cons]
    by_cases hg2 : g.id = gid2
    · have hne : (g.id == gid) = false := by
        rw [hg2]
        exact beq_eq_false_iff_ne.mpr (Ne.symm h)
      have hfid : ((if g.id == gid2 then { g with favorite := !g.favorite }
          else g).id == gid) = false := by
        rw [if_pos (by simp [hg2])]
        exact hne
      rw [hfid, hne]
      exact find?_fav_map_toggle h t
    · have hfg : (if g.id == gid2 then { g with favorite := !g.favorite } else g)
          = g := if_neg (by simp [hg2])
      rw [hfg]
      cases hgid : g.id == gid
      · exact find?_fav_map_toggle h t
      · rfl

lemma find?_fav_map_filter {T : GenRow → GenRow} {Q : String → Bool}
    (hTid : ∀ g, (T g).id = g.id) (hTfav : ∀ g, (T g).favorite = g.favorite)
    (gid : String) :
    ∀ l : List GenRow,
      ((((l.map T).filter fun g => Q g.id).find? (fun g => g.id == gid)).map
          (·.favorite)
        = ((l.find? (fun g => g.id == gid)).map (·.favorite)))
      ∨ (((l.map T).filter fun g => Q g.id).find? (fun g => g.id == gid)) = none
  | [] => Or.inr rfl
  | g :: t => by
    rw [List.map_cons]
    simp only [List.filter_cons]
    by_cases hq : Q (T g).id = true
    · rw [if_pos hq, List.find?_cons, List.find?_cons]
      by_cases hgid : g.id = gid
      · have h1 : ((T g).id == gid) = true := by simp [hTid g, hgid]
        have h2 : (g.id == gid) = true := by simp [hgid]
        rw [h1, h2]
        exact Or.inl (by simp [hTfav g])
      · have h1 : ((T g).id == gid) = false := by simp [hTid g, hgid]
        have h2 : (g.id == gid) = false := by simp [hgid]
        rw [h1, h2]
        exact find?_fav_map_filter hTid hTfav gid t
    · rw [if_neg hq, List.find?_cons]
      by_cases hgid : g.id = gid
      · refine Or.inr (List.find?_eq_none.mpr fun x hx => ?_)
        obtain ⟨hxmem, hxq⟩ := List.mem_filter.mp hx
        intro hxid
        apply hq
        have hxid2 : x.id = gid := by simpa using hxid
        have hQgid : Q gid = true := by
          have := hxq
          rw [hxid2] at this
          exact this
        rw [hTid g, hgid]
        exact hQgid
      · have h2 : (g.id == gid) = false := by simp [hgid]
        rw [h2]
        exact find?_fav_map_filter hTid hTfav gid t

lemma save_generation_false_inv {L : PyLibs} {s : Store} {failAt : Option Nat}
    {generation_id model_string model_category : String} {input_params : Json}
    {outputs : List ProcessedOutput} {thumbnail_path : Option String}
    {now : String} {s2 : Store}
    (h : save_generation L s failAt generation_id model_string model_category
        input_params outputs thumbnail_path now = (s2, false)) : s2 = s := by
  unfold save_generation at h
  split at h
  · simp at h
  · exact ((Prod.mk.injEq ..).mp h).1.symm

lemma favOf_toggle_ne (s : Store) (fail : Bool) {gid gid2 : String}
    (h : gid ≠ gid2) :
    favOf (toggle_favorite s fail gid2).1 gid = favOf s gid := by
  cases fail
  · show ((s.generations.map fun g =>
        if g.id == gid2 then { g with favorite := !g.favorite } else g).find?
          (fun g => g.id == gid)).map (·.favorite) = favOf s gid
    exact find?_fav_map_toggle h s.generations
  · rfl

lemma favOf_delete_ne (s : Store) (fail : Bool) {gid gid2 : String}
    (h : gid ≠ gid2) :
    favOf (delete_generation s fail gid2).1 gid = favOf s gid := by
  cases fail
  · show ((s.generations.filter fun g => g.id != gid2).find?
        (fun g => g.id == gid)).map (·.favorite) = favOf s gid
    rw [find?_filter_of_imp (fun g hg => by
      have hge : g.id = gid := by simpa using hg
      simp only [hge, bne_iff_ne, ne_eq, decide_not]
      simpa using h) s.generations]
    rfl
  · rfl

lemma favOf_save_ne (L : PyLibs) (s : Store) (failAt : Option Nat)
    {gid gid2 : String} (model_string model_category : String)
    (input_params : Json) (outputs : List ProcessedOutput)
    (thumbnail_path : Option String) (now : String) (h : gid ≠ gid2) :
    favOf (save_generation L s failAt gid2 model_string model_category
      input_params outputs thumbnail_path now).1 gid = favOf s gid := by
  cases hres : save_generation L s failAt gid2 model_string model_category
      input_params outputs thumbnail_path now with
  | mk s2 b =>
    cases b
    · rw [save_generation_false_inv hres]
    · obtain ⟨rows, hins, hs2⟩ := save_generation_ok_inv hres
      rw [hs2]
      show ((s.generations.filter (fun g => g.id != gid2)
          ++ [newGenRow L gid2 model_string model_category input_params
                thumbnail_path now]).find? (fun g => g.id == gid)).map (·.favorite)
        = favOf s gid
      rw [List.find?_append]
      have h1 : (s.generations.filter (fun g => g.id != gid2)).find?
          (fun g => g.id == gid) = s.generations.find? (fun g => g.id == gid) :=
        find?_filter_of_imp (fun g hg => by
          have hge : g.id = gid := by simpa using hg
          simp only [hge, bne_iff_ne, ne_eq, decide_not]
          simpa using h) s.generations
      have h2 : ([newGenRow L gid2 model_string model_category input_params
          thumbnail_path now].find? (fun g => g.id == gid)) = none := by
        rw [List.find?_cons]
        have hb : ((newGenRow L gid2 model_string model_category input_params
            thumbnail_path now).id == gid) = false := by
          simp [newGenRow]
          exact Ne.symm h
        rw [hb]
        rfl
      rw [h1, h2, Option.or_none]
      rfl

lemma favOf_save_self (L : PyLibs) (s : Store) (failAt : Option Nat)
    (gid model_string model_category : String) (input_params : Json)
    (outputs : List ProcessedOutput) (thumbnail_path : Option String)
    (now : String)
    (hok : (save_generation L s failAt gid model_string model_category
      input_params outputs thumbnail_path now).2 = true) :
    favOf (save_generation L s failAt gid model_string model_category
      input_params outputs thumbnail_path now).1 gid = some false := by
  cases hres : save_generation L s failAt gid model_string model_category
      input_params outputs thumbnail_path now with
  | mk s2 b =>
    rw [hres] at hok
    cases b
    · exact absurd hok (by simp)
    · obtain ⟨rows, hins, hs2⟩ := save_generation_ok_inv hres
      rw [hs2]
      show ((s.generations.filter (fun g => g.id != gid)
          ++ [newGenRow L gid model_string model_category input_params
                thumbnail_path now]).find? (fun g => g.id == gid)).map (·.favorite)
        = some false
      rw [List.find?_append]
      have h1 : (s.generations.filter (fun g => g.id != gid)).find?
          (fun g => g.id == gid) = none :=
        List.find?_eq_none.mpr fun g hg => by
          have hne := List.of_mem_filter hg
          simp only [bne_iff_ne, ne_eq] at hne
          simp [hne]
      have h2 : ([newGenRow L gid model_string model_category input_params
          thumbnail_path now].find? (fun g => g.id == gid))
          = some (newGenRow L gid model_string model_category input_params
              thumbnail_path now) := by
        rw [List.find?_cons]
        have hb : ((newGenRow L gid model_string model_category input_params
            thumbnail_path now).id == gid) = true := by simp [newGenRow]
        rw [hb]
      rw [h1, h2]
      rfl

lemma favOf_sync (s : Store) (fail : Bool) (fileExists : String → Bool)
    (gid : String) :
    favOf (sync_with_filesystem_db s fail fileExists) gid = favOf s gid ∨
    favOf (sync_with_filesystem_db s fail fileExists) gid = none := by
  cases fail
  · have hTid : ∀ g, (syncThumbClear s fileExists g).id = g.id := by
      intro g
      unfold syncThumbClear
      split <;> rfl
    have hTfav : ∀ g, (syncThumbClear s fileExists g).favorite = g.favorite := by
      intro g
      unfold syncThumbClear
      split <;> rfl
    have h := @find?_fav_map_filter (syncThumbClear s fileExists)
      (fun i => (syncOutputs2 s fileExists).any fun r => r.generation_id == i)
      hTid hTfav gid s.generations
    show (((s.generations.map (syncThumbClear s fileExists)).filter
        fun g => (syncOutputs2 s fileExists).any fun r =>
          r.generation_id == g.id).find? (fun g => g.id == gid)).map (·.favorite)
        = favOf s gid ∨
      (((s.generations.map (syncThumbClear s fileExists)).filter
        fun g => (syncOutputs2 s fileExists).any fun r =>
          r.generation_id == g.id).find? (fun g => g.id == gid)).map (·.favorite)
        = none
    rcases h with h | h
    · exact Or.inl h
    · exact Or.inr (by rw [h]; rfl)
  · exact Or.inl rfl

lemma favOf_cache (L : PyLibs) (s : Store) (fail : Bool) (model_string : String)
    (schema_data : Json) (now : String) (gid : String) :
    favOf (cache_model_schema L s fail model_string schema_data now).1 gid
      = favOf s gid := by
  cases fail <;> rfl

/-- C7 counterexample: re-saving an existing generation id does change its
favorite flag. In `storeFav` generation `g1` is favorited; calling
`save_generation` again for `g1` succeeds and leaves `favorite = FALSE`,
because the `INSERT OR REPLACE` re-inserts the row without listing the
`favorite` column, which therefore takes its declared default. -/
theorem c7_counterexample_save_resets_favorite :
    favOf storeFav "g1" = some true ∧
    (save_generation pyLibs0 storeFav none "g1" "acme/model" "image-generation"
        (.obj []) [] none "t2").2 = true ∧
    favOf (save_generation pyLibs0 storeFav none "g1" "acme/model"
        "image-generation" (.obj []) [] none "t2").1 "g1" = some false :=
  ⟨rfl, rfl, rfl⟩

/-- C7 amended: a stored generation's favorite flag is changed only by
`toggle_favorite` on its id or by `save_generation` on its id — and the
latter always resets it to `FALSE` (the upsert omits the `favorite`
column). Deleting, toggling or saving a different id, the database half of
filesystem reconciliation (which can at most make the generation disappear,
never flip the flag), and schema caching all leave the flag unchanged; the
read-only queries take no lock and write nothing by construction. -/
theorem c7_amended_favorite_frame (L : PyLibs) (s : Store) (gid : String) :
    (∀ (fail : Bool) (gid2 : String), gid ≠ gid2 →
      favOf (toggle_favorite s fail gid2).1 gid = favOf s gid) ∧
    (∀ (fail : Bool) (gid2 : String), gid ≠ gid2 →
      favOf (delete_generation s fail gid2).1 gid = favOf s gid) ∧
    (∀ (failAt : Option Nat) (gid2 model_string model_category : String)
        (input_params : Json) (outputs : List ProcessedOutput)
        (thumbnail_path : Option String) (now : String), gid ≠ gid2 →
      favOf (save_generation L s failAt gid2 model_string model_category
        input_params outputs thumbnail_path now).1 gid = favOf s gid) ∧
    (∀ (failAt : Option Nat) (model_string model_category : String)
        (input_params : Json) (outputs : List ProcessedOutput)
        (thumbnail_path : Option String) (now : String),
      (save_generation L s failAt gid model_string model_category
        input_params outputs thumbnail_path now).2 = true →
      favOf (save_generation L s failAt gid model_string model_category
        input_params outputs thumbnail_path now).1 gid = some false) ∧
    (∀ (fail : Bool) (fileExists : String → Bool),
      favOf (sync_with_filesystem_db s fail fileExists) gid = favOf s gid ∨
      favOf (sync_with_filesystem_db s fail fileExists) gid = none) ∧
    (∀ (fail : Bool) (model_string : String) (schema_data : Json) (now : String),
      favOf (cache_model_schema L s fail model_string schema_data now).1 gid
        = favOf s gid) := by
  refine ⟨?_, ?_, ?_, ?_, ?_, ?_⟩
  · intro fail gid2 h
    exact favOf_toggle_ne s fail h
  · intro fail gid2 h
    exact favOf_delete_ne s fail h
  · intro failAt gid2 ms mc params outs thumb now h
    exact favOf_save_ne L s failAt ms mc params outs thumb now h
  · intro failAt ms mc params outs thumb now hok
    exact favOf_save_self L s failAt gid ms mc params outs thumb now hok
  · intro fail fileExists
    exact favOf_sync s fail fileExists gid
  · intro fail ms sd now
    exact favOf_cache L s fail ms sd now gid

/-- C7 witness: on `storeFav`, toggling / deleting / saving a different id
leaves the favorite flag of `g1` at `some true`, and re-saving `g1` itself
(which succeeds) resets it to `some false`. -/
theorem c7_amended_favorite_frame_witness :
    favOf (toggle_favorite storeFav false "other").1 "g1" = favOf storeFav "g1" ∧
    favOf (delete_generation storeFav false "other").1 "g1"
      = favOf storeFav "g1" ∧
    favOf (save_generation pyLibs0 storeFav none "other" "m" "c" (.obj []) []
      none "t3").1 "g1" = favOf storeFav "g1" ∧
    favOf (save_generation pyLibs0 storeFav none "g1" "m" "c" (.obj []) []
      none "t3").1 "g1" = some false := by
  have h := c7_amended_favorite_frame pyLibs0 storeFav "g1"
  exact ⟨h.1 false "other" (by decide), h.2.1 false "other" (by decide),
    h.2.2.1 none "other" "m" "c" (.obj []) [] none "t3" (by decide),
    h.2.2.2.1 none "m" "c" (.obj []) [] none "t3" rfl⟩
